import Mathlib

/-!
Verification development for the Recovery-Guard backend case domain.

Shallow embedding of the polymorphic case model (`cases/models.py`), the
serializer-level validation rules (`cases/serializers.py`), the lifecycle and
listing views (`cases/views.py`) and the dashboard/analytics views
(`core/views.py`).  Machine-level conventions of the embedding:

* actors (`CustomUser`) carry the two role flags `is_customer` / `is_agent`;
  the Django user object identity comparison (`user == case.customer`) is
  modelled as comparison of the stable user id;
* `DateTimeField` values are modelled as natural-number timestamps (seconds);
* `DecimalField` money amounts are modelled as exact rationals (`Rat`); the
  Django `max_digits` bound is orthogonal to every claim (all concrete values
  are tiny) and is not re-checked;
* nullable text columns (`blank=True, null=True`) are modelled as plain
  strings, with the empty string standing for an absent value, exactly as the
  create views supply them (`data.get(key, "")`); nullable date columns keep
  `Option`;
* a persisted row of the multi-table-inheritance hierarchy is a `StoredCase`:
  the base `Case` columns plus the one kind-specific payload (the source
  dispatches on `hasattr(case, "cryptolossreport")` etc.; a row has at most
  one child row, so the payload is a sum);
* Django `Model.full_clean()` is modelled by the `clean*Errors` functions:
  required (`blank=False`) text fields must be non-empty, `choices` columns
  must hold a declared choice, required nullable inputs must be present.
  `full_clean` performs **no** positivity check on `DecimalField`s;
* `transaction.atomic` blocks are modelled as all-or-nothing: a view body is
  a function returning `Except` (error leaves the store unchanged).
-/

/-- An authenticated actor (`accounts.CustomUser`): stable id plus the two
role flags used by every view for scoping. -/
structure User where
  uid : Nat
  is_customer : Bool
  is_agent : Bool
deriving DecidableEq

/-- The base `Case` row (`cases/models.py`, class `Case`). -/
structure Case where
  cid : Nat
  title : String
  description : String
  created_at : Nat
  updated_at : Nat
  agent : Option Nat
  customer : Nat
  status : String
  priority : String
  resolution : Option String
  resolution_date : Option Nat
  resolution_status : String
  is_active : Bool
  is_closed : Bool
  type : String
deriving DecidableEq

/-- The child columns of `CryptoLossReport`. -/
structure CryptoFields where
  amount_lost : Rat
  usdt_value : Rat
  txid : String
  sender_wallet : String
  receiver_wallet : String
  platform_used : String
  blockchain_hash : String
  payment_method : String
  exchange_info : String
  wallet_backup : String
  crypto_type : String
  transaction_datetime : Nat
  loss_description : String
deriving DecidableEq

/-- The child columns of `SocialMediaRecovery`. -/
structure SocialFields where
  platform : String
  full_name : String
  email : String
  phone : String
  username : String
  profile_url : String
  profile_pic : Option String
  account_creation_date : Option Nat
  last_access_date : Option Nat
deriving DecidableEq

/-- The child columns of `MoneyRecoveryReport`. -/
structure MoneyFields where
  first_name : String
  last_name : String
  phone : String
  email : String
  identification : String
  amount : Rat
  ref_number : String
  bank : String
  iban : String
  datetime : Nat
deriving DecidableEq

/-- The kind-specific payload attached to a base row: at most one child row
exists per base row in the multi-table-inheritance scheme. -/
inductive CasePayload
  | general
  | crypto (f : CryptoFields)
  | social (f : SocialFields)
  | money (f : MoneyFields)
deriving DecidableEq

/-- One persisted case: base columns plus the one kind-specific payload. -/
structure StoredCase where
  base : Case
  ext : CasePayload
deriving DecidableEq

/-- A `SupportingDocuments` row. -/
structure Document where
  case_id : Nat
  uploaded_at : Nat
  description : Option String
deriving DecidableEq

/-- `Case.STATUS_CHOICES` keys. -/
def statusChoices : List String := ["open", "in_progress", "pending", "resolved", "closed"]

/-- `Case.PRIORITY_CHOICES` keys. -/
def priorityChoices : List String := ["low", "normal", "high", "urgent"]

/-- `Case.TYPE_CHOICES` keys. -/
def typeChoices : List String := ["general", "crypto", "money_recovery", "social_media"]

/-- `CryptoLossReport.CRYPTO_CHOICES` keys. -/
def cryptoChoices : List String :=
  ["Bitcoin", "Ethereum", "USDT", "BNB", "Solana", "Litecoin", "Cardano", "Polkadot", "Other"]

/-- `SocialMediaRecovery.PLATFORM_CHOICES` keys. -/
def platformChoices : List String :=
  ["Facebook", "Instagram", "Twitter", "LinkedIn", "Snapchat", "TikTok", "Reddit",
   "YouTube", "Pinterest", "WhatsApp", "Telegram", "Discord", "Other"]

/-- `get_status_display`: the human label of a status key. -/
def statusDisplay (s : String) : String :=
  if s = "open" then "Open"
  else if s = "in_progress" then "In Progress"
  else if s = "pending" then "Pending"
  else if s = "resolved" then "Resolved"
  else if s = "closed" then "Closed"
  else s

/-- `get_type_display`: the human label of a kind key. -/
def typeDisplay (s : String) : String :=
  if s = "general" then "General"
  else if s = "crypto" then "Crypto"
  else if s = "money_recovery" then "Money Recovery"
  else if s = "social_media" then "Social Media"
  else s

/-- `Case.close_case` (`cases/models.py` lines 80-84): set `is_closed` and
force `status` to closed, then save.  Total: the helper has no failure path. -/
def close_case (c : Case) : Case :=
  { c with is_closed := true, status := "closed" }

/-- `Case.assign_agent`: set the agent and move the status to in-progress. -/
def assign_agent (c : Case) (a : Nat) : Case :=
  { c with agent := some a, status := "in_progress" }

/-- `full_clean` on the base `Case` columns: required text fields must be
non-blank and every `choices` column must hold a declared choice. -/
def cleanCaseErrors (c : Case) : List String :=
  (if c.title = "" then ["title: blank"] else []) ++
  (if c.description = "" then ["description: blank"] else []) ++
  (if statusChoices.contains c.status then [] else ["status: invalid choice"]) ++
  (if priorityChoices.contains c.priority then [] else ["priority: invalid choice"]) ++
  (if typeChoices.contains c.type then [] else ["type: invalid choice"]) ++
  (if c.resolution_status = "" then ["resolution_status: blank"] else [])

/-- `full_clean` on the `CryptoLossReport` child columns.  Note: the decimal
columns `amount_lost` / `usdt_value` have no validator beyond presence — model
validation performs no positivity check. -/
def cleanCryptoErrors (f : CryptoFields) : List String :=
  (if f.txid = "" then ["txid: blank"] else []) ++
  (if f.sender_wallet = "" then ["sender_wallet: blank"] else []) ++
  (if f.receiver_wallet = "" then ["receiver_wallet: blank"] else []) ++
  (if cryptoChoices.contains f.crypto_type then [] else ["crypto_type: invalid choice"]) ++
  (if f.loss_description = "" then ["loss_description: blank"] else [])

/-- `full_clean` on the `SocialMediaRecovery` child columns. -/
def cleanSocialErrors (f : SocialFields) : List String :=
  (if platformChoices.contains f.platform then [] else ["platform: invalid choice"]) ++
  (if f.full_name = "" then ["full_name: blank"] else []) ++
  (if f.email = "" then ["email: blank"] else []) ++
  (if f.username = "" then ["username: blank"] else [])

/-- `full_clean` on the `MoneyRecoveryReport` child columns. -/
def cleanMoneyErrors (f : MoneyFields) : List String :=
  (if f.first_name = "" then ["first_name: blank"] else []) ++
  (if f.last_name = "" then ["last_name: blank"] else []) ++
  (if f.phone = "" then ["phone: blank"] else []) ++
  (if f.email = "" then ["email: blank"] else []) ++
  (if f.identification = "" then ["identification: blank"] else []) ++
  (if f.bank = "" then ["bank: blank"] else []) ++
  (if f.iban = "" then ["iban: blank"] else [])

/-- One `save()` on a stored row.  The overridden `save` of each child class
forces the base `type` column to the fixed kind of that class
(`cases/models.py` lines 130-132, 167-169, 192-194); the base `Case.save` is
not overridden and forces nothing. -/
def modelSave (s : StoredCase) : StoredCase :=
  match s.ext with
  | .crypto f => ⟨{ s.base with type := "crypto" }, .crypto f⟩
  | .social f => ⟨{ s.base with type := "social_media" }, .social f⟩
  | .money f => ⟨{ s.base with type := "money_recovery" }, .money f⟩
  | .general => s

/-- A caller-supplied overwrite of the `type` column before a save. -/
def withType (s : StoredCase) (t : String) : StoredCase :=
  ⟨{ s.base with type := t }, s.ext⟩

/-- `CaseDetailView._has_permission` (`cases/views.py` lines 414-418): the one
predicate gating get, put and delete on a case. -/
def hasPermission (u : User) (s : StoredCase) : Bool :=
  (u.uid == s.base.customer) ||
  (match s.base.agent with
   | some a => a == u.uid
   | none => false) ||
  (u.is_agent && s.base.agent == none)

/-- The permission decision taken by `CaseDetailView.get`. -/
def detailGetAllowed (u : User) (s : StoredCase) : Bool := hasPermission u s

/-- The permission decision taken by `CaseDetailView.put`. -/
def detailPutAllowed (u : User) (s : StoredCase) : Bool := hasPermission u s

/-- The permission decision taken by `CaseDetailView.delete`. -/
def detailDeleteAllowed (u : User) (s : StoredCase) : Bool := hasPermission u s

/-- `CaseListApiView.get` (`cases/views.py` lines 22-59): role-caseSet listing
with optional equality filters.  Customers see their own cases; agents see
cases assigned to them or unassigned cases; any other actor receives the
hard "User role not recognized" failure. -/
def caseListCases (u : User) (statusF typeF priorityF : Option String)
    (db : List StoredCase) : Except String (List StoredCase) :=
  let caseSet : Except String (List StoredCase) :=
    if u.is_customer then
      .ok (db.filter (fun s => s.base.customer == u.uid))
    else if u.is_agent then
      .ok (db.filter (fun s => s.base.agent == some u.uid || s.base.agent == none))
    else
      .error "User role not recognized"
  match caseSet with
  | .error e => .error e
  | .ok l =>
    let l := match statusF with
      | some v => l.filter (fun s => s.base.status == v)
      | none => l
    let l := match typeF with
      | some v => l.filter (fun s => s.base.type == v)
      | none => l
    let l := match priorityF with
      | some v => l.filter (fun s => s.base.priority == v)
      | none => l
    .ok l

/-- The case scope of `CaseStatsAPIView.get` (`cases/views.py` lines 497-509):
customers get their own cases, agents get the cases assigned to them, any
other actor the hard failure. -/
def caseStatsCases (u : User) (db : List StoredCase) : Except String (List StoredCase) :=
  if u.is_customer then
    .ok (db.filter (fun s => s.base.customer == u.uid))
  else if u.is_agent then
    .ok (db.filter (fun s => s.base.agent == some u.uid))
  else
    .error "User role not recognized"

/-- The role label and case scope of `DashboardView.post` (`core/views.py`
lines 31-44): customer and agent branches filter on `is_active`; every other
actor falls into the admin branch and receives the full active-case scope. -/
def dashboardScope (u : User) (db : List StoredCase) : String × List StoredCase :=
  if u.is_customer then
    ("customer", db.filter (fun s => s.base.customer == u.uid && s.base.is_active))
  else if u.is_agent then
    ("agent", db.filter (fun s => s.base.agent == some u.uid && s.base.is_active))
  else
    ("admin", db.filter (fun s => s.base.is_active))

/-- The case scope of `CaseTypeStatsView.get` (`core/views.py` lines 330-338),
duplicating the dashboard role branching. -/
def typeStatsScope (u : User) (db : List StoredCase) : List StoredCase :=
  if u.is_customer then
    db.filter (fun s => s.base.customer == u.uid && s.base.is_active)
  else if u.is_agent then
    db.filter (fun s => s.base.agent == some u.uid && s.base.is_active)
  else
    db.filter (fun s => s.base.is_active)

/-- The case scope of `CaseAnalyticsView.get` (`core/views.py` lines
392-401), duplicating the dashboard role branching. -/
def analyticsScope (u : User) (db : List StoredCase) : List StoredCase :=
  if u.is_customer then
    db.filter (fun s => s.base.customer == u.uid && s.base.is_active)
  else if u.is_agent then
    db.filter (fun s => s.base.agent == some u.uid && s.base.is_active)
  else
    db.filter (fun s => s.base.is_active)

/-- Count of caseSet cases holding one status value. -/
def countStatus (l : List StoredCase) (st : String) : Nat :=
  (l.filter (fun s => s.base.status == st)).length

/-- The five pipeline labels of `DashboardView._build_progress`. -/
def progressSteps : List String :=
  ["Case Created", "Under Review", "Investigation", "Resolution Phase", "Completed"]

/-- The zero-state labels of `DashboardView._build_progress`. -/
def zeroCaseSteps : List String :=
  ["No Cases", "Create Case", "Submit Details", "Await Assignment", "In Progress"]

/-- `DashboardView._build_progress` (`core/views.py` lines 199-238).  The
source compares count ratios against the literals 0.8 / 0.6 / 0.4 / 0.8; the
embedding states the same comparisons cross-multiplied in exact integer
arithmetic (`r / n >= 4/5` as `n * 4 <= r * 5`). -/
def buildProgress (caseSet : List StoredCase) : List String × Nat :=
  let total := caseSet.length
  if 0 < total then
    let openCount := countStatus caseSet "open"
    let inProgressCount := countStatus caseSet "in_progress"
    let pendingCount := countStatus caseSet "pending"
    let resolvedCount :=
      (caseSet.filter (fun s => s.base.status == "resolved" || s.base.status == "closed")).length
    let idx :=
      if total * 4 ≤ resolvedCount * 5 then 4
      else if total * 3 ≤ (resolvedCount + pendingCount) * 5 then 3
      else if total * 2 ≤ inProgressCount * 5 then 2
      else if openCount * 5 < total * 4 then 1
      else 0
    (progressSteps, idx)
  else
    (zeroCaseSteps, 0)

/-- One rendered entry of the activity feed.  The document entries of the
source carry no `case_type` / `priority` keys; those are `none` there. -/
structure ActivityItem where
  icon : String
  message : String
  detail : String
  time : String
  case_id : Nat
  case_type : Option String
  priority : Option String
deriving DecidableEq

/-- Insertion step of a descending sort by a numeric key (models the store
ordering `order_by('-updated_at')` / `order_by('-uploaded_at')`). -/
def insertDesc (key : α → Nat) (x : α) : List α → List α
  | [] => [x]
  | y :: ys => if key y < key x then x :: y :: ys else y :: insertDesc key x ys

/-- Descending sort by a numeric key. -/
def sortDesc (key : α → Nat) (l : List α) : List α :=
  l.foldr (insertDesc key) []

/-- `DashboardView._calculate_time_ago` (`core/views.py` lines 312-323) on a
difference of `diff` seconds; `days` and `secs` are the two components of the
Python `timedelta`. -/
def calculateTimeAgo (diff : Nat) : String :=
  let days := diff / 86400
  let secs := diff % 86400
  if 0 < days then
    toString days ++ " day" ++ (if 1 < days then "s" else "") ++ " ago"
  else if 3600 < secs then
    let hours := secs / 3600
    toString hours ++ " hour" ++ (if 1 < hours then "s" else "") ++ " ago"
  else if 60 < secs then
    let minutes := secs / 60
    toString minutes ++ " minute" ++ (if 1 < minutes then "s" else "") ++ " ago"
  else
    "Just now"

/-- Rendering of one scoped case into an activity entry
(`core/views.py` lines 247-287). -/
def caseActivityItem (now : Nat) (s : StoredCase) : ActivityItem :=
  let icon :=
    if s.base.type = "crypto" then "₿"
    else if s.base.type = "social_media" then "📱"
    else if s.base.type = "money_recovery" then "💰"
    else "📋"
  let pair :=
    if s.base.status = "resolved" then
      ("Case resolved: " ++ s.base.title, "✅ Completed")
    else if s.base.status = "in_progress" then
      ("Case in progress: " ++ s.base.title,
       "Assigned to " ++ match s.base.agent with
                         | some a => "agent " ++ toString a
                         | none => "Unassigned")
    else if s.base.status = "pending" then
      ("Case pending: " ++ s.base.title, "⏳ Awaiting action")
    else if s.base.status = "open" then
      ("New case opened: " ++ s.base.title, "🆕 Recently created")
    else
      ("Case updated: " ++ s.base.title, statusDisplay s.base.status)
  { icon := icon
    message := pair.1
    detail := pair.2
    time := calculateTimeAgo (now - s.base.updated_at)
    case_id := s.base.cid
    case_type := some (typeDisplay s.base.type)
    priority := some s.base.priority }

/-- Rendering of one document upload into an activity entry
(`core/views.py` lines 295-305); `title` is the title of the owning case. -/
def docActivityItem (now : Nat) (title : String) (d : Document) : ActivityItem :=
  { icon := "📎"
    message := "Document uploaded for case: " ++ title
    detail := d.description.getD "Supporting document"
    time := calculateTimeAgo (now - d.uploaded_at)
    case_id := d.case_id
    case_type := none
    priority := none }

/-- `DashboardView._build_activity` (`core/views.py` lines 240-310): render
the 15 most recently updated scoped cases, append the 5 most recently
uploaded documents of scoped cases, and truncate to 10.  The trailing comment
of the source announces a sort of the merged list by recency, but no sort is
performed — the case entries always precede the document entries. -/
def buildActivity (caseSet : List StoredCase) (docs : List Document) (now : Nat) :
    List ActivityItem :=
  let recentCases := (sortDesc (fun s => s.base.updated_at) caseSet).take 15
  let caseItems := recentCases.map (caseActivityItem now)
  let docsInScope := docs.filter (fun d => caseSet.any (fun s => s.base.cid == d.case_id))
  let recentDocs := (sortDesc (fun d : Document => d.uploaded_at) docsInScope).take 5
  let docItems := recentDocs.map (fun d =>
    let title := ((caseSet.find? (fun s => s.base.cid == d.case_id)).map
      (fun s => s.base.title)).getD ""
    docActivityItem now title d)
  (caseItems ++ docItems).take 10

/-- `CryptoLossReportSerializer.validate` (`cases/serializers.py` lines
61-66): the only positivity check in the codebase for crypto amounts. -/
def cryptoSerializerValidate (amount_lost usdt_value : Rat) : Except String Unit :=
  if amount_lost ≤ 0 then .error "Amount lost must be greater than zero"
  else if usdt_value ≤ 0 then .error "USDT value must be greater than zero"
  else .ok ()

/-- `CaseSerializer.validate` (`cases/serializers.py` lines 36-39): a patch
carrying a truthy `is_closed` whose `status` value is not the closed status is
rejected. -/
def caseSerializerValidate (is_closed : Option Bool) (statusV : Option String) :
    Except String Unit :=
  match is_closed with
  | some true =>
    if statusV == some "closed" then .ok ()
    else .error "Closed cases must have status closed"
  | _ => .ok ()

/-- The request body of `CreateCryptoLossAPIView.post`: every key of the data
dict may be absent. -/
structure CryptoCreateData where
  title : Option String := none
  description : Option String := none
  status : Option String := none
  priority : Option String := none
  amount_lost : Option Rat := none
  usdt_value : Option Rat := none
  txid : Option String := none
  sender_wallet : Option String := none
  receiver_wallet : Option String := none
  platform_used : Option String := none
  blockchain_hash : Option String := none
  payment_method : Option String := none
  crypto_type : Option String := none
  transaction_datetime : Option Nat := none
  loss_description : Option String := none
  exchange_info : Option String := none
  wallet_backup : Option String := none
deriving DecidableEq

/-- The outcome of a create view: the created row (HTTP 201) or the
ValidationError response (HTTP 400). -/
inductive CreateResult
  | created (s : StoredCase)
  | validationError (msgs : List String)
deriving DecidableEq

/-- `CreateCryptoLossAPIView.post` (`cases/views.py` lines 92-154): build the
`CryptoLossReport` instance with the view defaults, run `full_clean`, and
persist inside `transaction.atomic`.  A required field supplied as null, a
blank required text field or an invalid choice raises `ValidationError`
(nothing persisted).  The serializer is used only to render the response, so
`CryptoLossReportSerializer.validate` never runs on this path. -/
def createCryptoLoss (u : User) (now : Nat) (d : CryptoCreateData)
    (db : List StoredCase) : CreateResult × List StoredCase :=
  match d.amount_lost, d.usdt_value, d.transaction_datetime with
  | some al, some uv, some td =>
    let base : Case :=
      { cid := db.length + 1
        title := d.title.getD "Crypto Loss Report"
        description := d.description.getD ""
        created_at := now
        updated_at := now
        agent := none
        customer := u.uid
        status := d.status.getD "open"
        priority := d.priority.getD "normal"
        resolution := none
        resolution_date := none
        resolution_status := "unresolved"
        is_active := true
        is_closed := false
        type := "crypto" }
    let f : CryptoFields :=
      { amount_lost := al
        usdt_value := uv
        txid := d.txid.getD ""
        sender_wallet := d.sender_wallet.getD ""
        receiver_wallet := d.receiver_wallet.getD ""
        platform_used := d.platform_used.getD ""
        blockchain_hash := d.blockchain_hash.getD ""
        payment_method := d.payment_method.getD ""
        exchange_info := d.exchange_info.getD ""
        wallet_backup := d.wallet_backup.getD "False"
        crypto_type := d.crypto_type.getD ""
        transaction_datetime := td
        loss_description := d.loss_description.getD "" }
    let errs := cleanCaseErrors base ++ cleanCryptoErrors f
    if errs = [] then
      let row := modelSave ⟨base, .crypto f⟩
      (.created row, db ++ [row])
    else
      (.validationError errs, db)
  | _, _, _ => (.validationError ["null value in required field"], db)

/-- The request body of `CaseDetailView.put`: the union of every key the view
may look up, each possibly absent.  Keys outside the allow-lists (for
instance `is_closed`, `agent`, `customer`, `type`, `is_active`,
`created_at`) can be present in a request, but the view body never reads
them. -/
structure UpdateData where
  title : Option String := none
  description : Option String := none
  status : Option String := none
  priority : Option String := none
  resolution : Option String := none
  resolution_status : Option String := none
  is_closed : Option Bool := none
  is_active : Option Bool := none
  agent : Option (Option Nat) := none
  customer : Option Nat := none
  type : Option String := none
  created_at : Option Nat := none
  amount_lost : Option Rat := none
  usdt_value : Option Rat := none
  txid : Option String := none
  sender_wallet : Option String := none
  receiver_wallet : Option String := none
  platform_used : Option String := none
  blockchain_hash : Option String := none
  payment_method : Option String := none
  crypto_type : Option String := none
  transaction_datetime : Option Nat := none
  loss_description : Option String := none
  exchange_info : Option String := none
  wallet_backup : Option String := none
  platform : Option String := none
  full_name : Option String := none
  email : Option String := none
  phone : Option String := none
  username : Option String := none
  profile_url : Option String := none
  profile_pic : Option String := none
  account_creation_date : Option Nat := none
  last_access_date : Option Nat := none
  first_name : Option String := none
  last_name : Option String := none
  identification : Option String := none
  amount : Option Rat := none
  ref_number : Option String := none
  bank : Option String := none
  iban : Option String := none
  datetime : Option Nat := none
deriving DecidableEq

/-- The base-field loop of `CaseDetailView.put` (`cases/views.py` lines
320-324): exactly the six keys of `base_fields` are copied when present. -/
def applyBasePatch (c : Case) (p : UpdateData) : Case :=
  { c with
    title := p.title.getD c.title
    description := p.description.getD c.description
    status := p.status.getD c.status
    priority := p.priority.getD c.priority
    resolution := match p.resolution with
      | some v => some v
      | none => c.resolution
    resolution_status := p.resolution_status.getD c.resolution_status }

/-- The crypto-field loop of `CaseDetailView.put` (lines 327-336). -/
def applyCryptoPatch (f : CryptoFields) (p : UpdateData) : CryptoFields :=
  { f with
    amount_lost := p.amount_lost.getD f.amount_lost
    usdt_value := p.usdt_value.getD f.usdt_value
    txid := p.txid.getD f.txid
    sender_wallet := p.sender_wallet.getD f.sender_wallet
    receiver_wallet := p.receiver_wallet.getD f.receiver_wallet
    platform_used := p.platform_used.getD f.platform_used
    blockchain_hash := p.blockchain_hash.getD f.blockchain_hash
    payment_method := p.payment_method.getD f.payment_method
    crypto_type := p.crypto_type.getD f.crypto_type
    transaction_datetime := p.transaction_datetime.getD f.transaction_datetime
    loss_description := p.loss_description.getD f.loss_description
    exchange_info := p.exchange_info.getD f.exchange_info
    wallet_backup := p.wallet_backup.getD f.wallet_backup }

/-- The social-field loop of `CaseDetailView.put` (lines 338-345). -/
def applySocialPatch (f : SocialFields) (p : UpdateData) : SocialFields :=
  { f with
    platform := p.platform.getD f.platform
    full_name := p.full_name.getD f.full_name
    email := p.email.getD f.email
    phone := p.phone.getD f.phone
    username := p.username.getD f.username
    profile_url := p.profile_url.getD f.profile_url
    profile_pic := match p.profile_pic with
      | some v => some v
      | none => f.profile_pic
    account_creation_date := match p.account_creation_date with
      | some v => some v
      | none => f.account_creation_date
    last_access_date := match p.last_access_date with
      | some v => some v
      | none => f.last_access_date }

/-- The money-field loop of `CaseDetailView.put` (lines 347-354). -/
def applyMoneyPatch (f : MoneyFields) (p : UpdateData) : MoneyFields :=
  { f with
    first_name := p.first_name.getD f.first_name
    last_name := p.last_name.getD f.last_name
    phone := p.phone.getD f.phone
    email := p.email.getD f.email
    identification := p.identification.getD f.identification
    amount := p.amount.getD f.amount
    ref_number := p.ref_number.getD f.ref_number
    bank := p.bank.getD f.bank
    iban := p.iban.getD f.iban
    datetime := p.datetime.getD f.datetime }

/-- The transactional body of `CaseDetailView.put` (`cases/views.py` lines
316-369), after the permission gate: copy the allow-listed base keys, copy the
allow-listed keys of the attached kind, `full_clean` the base then the
extension, and save both; the overridden child `save` forces the `type`
column.  A failed `full_clean` raises `ValidationError` and `transaction.atomic`
rolls everything back, so the error branch carries no new state. -/
def updateCase (s : StoredCase) (p : UpdateData) : Except (List String) StoredCase :=
  let c := applyBasePatch s.base p
  match s.ext with
  | .general =>
    if cleanCaseErrors c = [] then .ok ⟨c, .general⟩
    else .error (cleanCaseErrors c)
  | .crypto f =>
    let f2 := applyCryptoPatch f p
    if cleanCaseErrors c = [] then
      if cleanCryptoErrors f2 = [] then .ok ⟨{ c with type := "crypto" }, .crypto f2⟩
      else .error (cleanCryptoErrors f2)
    else .error (cleanCaseErrors c)
  | .social f =>
    let f2 := applySocialPatch f p
    if cleanCaseErrors c = [] then
      if cleanSocialErrors f2 = [] then .ok ⟨{ c with type := "social_media" }, .social f2⟩
      else .error (cleanSocialErrors f2)
    else .error (cleanCaseErrors c)
  | .money f =>
    let f2 := applyMoneyPatch f p
    if cleanCaseErrors c = [] then
      if cleanMoneyErrors f2 = [] then .ok ⟨{ c with type := "money_recovery" }, .money f2⟩
      else .error (cleanMoneyErrors f2)
    else .error (cleanCaseErrors c)

/-- The kind/extension agreement invariant of the store: the `type` column of
a row matches its attached payload (`general` rows carry no child row). -/
def matchesKind (s : StoredCase) : Bool :=
  match s.ext with
  | .general => s.base.type == "general"
  | .crypto _ => s.base.type == "crypto"
  | .social _ => s.base.type == "social_media"
  | .money _ => s.base.type == "money_recovery"

/-- One caller-overwrite-then-save step: the caller assigns an arbitrary
`type` value to the instance and then calls `save()`. -/
def saveStep (x : StoredCase) (t : String) : StoredCase := modelSave (withType x t)

/-- The fixed kind string of a payload variant (`general` rows have no
overridden `save`, so no kind is forced for them). -/
def kindOf : CasePayload → Option String
  | .general => none
  | .crypto _ => some "crypto"
  | .social _ => some "social_media"
  | .money _ => some "money_recovery"

/-- Customer fixture for the crypto-create evaluation. -/
def c1User : User := ⟨1, true, false⟩

/-- A create-crypto request whose `usdt_value` is zero and whose every other
field is valid and non-blank. -/
def c1ReqZero : CryptoCreateData :=
  { title := some "Stolen BTC"
    description := some "Wallet drained overnight"
    amount_lost := some 100
    usdt_value := some 0
    txid := some "tx123"
    sender_wallet := some "wallet-a"
    receiver_wallet := some "wallet-b"
    crypto_type := some "Bitcoin"
    transaction_datetime := some 500
    loss_description := some "funds moved to unknown wallet" }

/-- The crypto child columns the create view persists for `c1ReqZero`. -/
def c1Fields : CryptoFields :=
  { amount_lost := 100
    usdt_value := 0
    txid := "tx123"
    sender_wallet := "wallet-a"
    receiver_wallet := "wallet-b"
    platform_used := ""
    blockchain_hash := ""
    payment_method := ""
    exchange_info := ""
    wallet_backup := "False"
    crypto_type := "Bitcoin"
    transaction_datetime := 500
    loss_description := "funds moved to unknown wallet" }

/-- The full row the create view persists for `c1ReqZero`. -/
def c1Row : StoredCase :=
  ⟨{ cid := 1
     title := "Stolen BTC"
     description := "Wallet drained overnight"
     created_at := 700
     updated_at := 700
     agent := none
     customer := 1
     status := "open"
     priority := "normal"
     resolution := none
     resolution_date := none
     resolution_status := "unresolved"
     is_active := true
     is_closed := false
     type := "crypto" }, .crypto c1Fields⟩

/-- Agent fixture for the scoping counterexample. -/
def c2Agent : User := ⟨2, false, true⟩

/-- An unassigned active case owned by another customer. -/
def c2Unassigned : StoredCase :=
  ⟨{ cid := 1, title := "U", description := "d", created_at := 10, updated_at := 10,
     agent := none, customer := 1, status := "open", priority := "normal",
     resolution := none, resolution_date := none, resolution_status := "unresolved",
     is_active := true, is_closed := false, type := "general" }, .general⟩

/-- An actor holding none of the three roles. -/
def c3User : User := ⟨9, false, false⟩

/-- An active case of some other customer, assigned to some other agent. -/
def c3Case : StoredCase :=
  ⟨{ cid := 4, title := "Foreign", description := "d", created_at := 10, updated_at := 10,
     agent := some 3, customer := 1, status := "open", priority := "normal",
     resolution := none, resolution_date := none, resolution_status := "unresolved",
     is_active := true, is_closed := false, type := "general" }, .general⟩

/-- Case A of the activity-ordering scenario: updated at time 100. -/
def c4CaseA : StoredCase :=
  ⟨{ cid := 1, title := "Alpha", description := "d", created_at := 90, updated_at := 100,
     agent := none, customer := 1, status := "open", priority := "normal",
     resolution := none, resolution_date := none, resolution_status := "unresolved",
     is_active := true, is_closed := false, type := "general" }, .general⟩

/-- Case B of the activity-ordering scenario: updated at time 101. -/
def c4CaseB : StoredCase :=
  ⟨{ cid := 2, title := "Beta", description := "d", created_at := 91, updated_at := 101,
     agent := none, customer := 1, status := "open", priority := "normal",
     resolution := none, resolution_date := none, resolution_status := "unresolved",
     is_active := true, is_closed := false, type := "general" }, .general⟩

/-- A document uploaded for case A at time 102, later than both updates. -/
def c4Doc : Document := ⟨1, 102, none⟩

/-- Base columns of a valid persisted crypto case, not closed. -/
def c5Base : Case :=
  { cid := 1, title := "C", description := "d", created_at := 10, updated_at := 10,
    agent := none, customer := 1, status := "open", priority := "normal",
    resolution := none, resolution_date := none, resolution_status := "unresolved",
    is_active := true, is_closed := false, type := "crypto" }

/-- Valid crypto child columns. -/
def c5Fields : CryptoFields :=
  { amount_lost := 5, usdt_value := 5, txid := "t", sender_wallet := "s",
    receiver_wallet := "r", platform_used := "", blockchain_hash := "",
    payment_method := "", exchange_info := "", wallet_backup := "",
    crypto_type := "Bitcoin", transaction_datetime := 9, loss_description := "l" }

/-- A valid persisted crypto case, not closed. -/
def c5Row : StoredCase := ⟨c5Base, .crypto c5Fields⟩

/-- A patch that sets `is_closed` to true without touching `status`. -/
def c5Patch : UpdateData := { is_closed := some true }

/-- One resolved case: a scope of one resolved case sits at ratio 1 ≥ 4/5. -/
def c6Row : StoredCase :=
  ⟨{ cid := 1, title := "R", description := "d", created_at := 10, updated_at := 20,
     agent := some 2, customer := 1, status := "resolved", priority := "normal",
     resolution := some "done", resolution_date := some 20,
     resolution_status := "resolved", is_active := true, is_closed := false,
     type := "general" }, .general⟩

/-- A valid persisted crypto case for the update-frame witness. -/
def c10Row : StoredCase :=
  ⟨{ cid := 3, title := "Old title", description := "d", created_at := 10, updated_at := 10,
     agent := some 2, customer := 1, status := "open", priority := "normal",
     resolution := none, resolution_date := none, resolution_status := "unresolved",
     is_active := true, is_closed := false, type := "crypto" },
   .crypto { amount_lost := 5, usdt_value := 5, txid := "t", sender_wallet := "s",
             receiver_wallet := "r", platform_used := "", blockchain_hash := "",
             payment_method := "", exchange_info := "", wallet_backup := "",
             crypto_type := "Bitcoin", transaction_datetime := 9,
             loss_description := "l" }⟩

/-- A patch updating one base field and one crypto field (and carrying a
`customer` key that the view must ignore). -/
def c10Patch : UpdateData :=
  { title := some "New title", usdt_value := some 7, customer := some 42 }

/-- The row `updateCase` produces from `c10Row` and `c10Patch`. -/
def c10Row' : StoredCase :=
  ⟨{ cid := 3, title := "New title", description := "d", created_at := 10, updated_at := 10,
     agent := some 2, customer := 1, status := "open", priority := "normal",
     resolution := none, resolution_date := none, resolution_status := "unresolved",
     is_active := true, is_closed := false, type := "crypto" },
   .crypto { amount_lost := 5, usdt_value := 7, txid := "t", sender_wallet := "s",
             receiver_wallet := "r", platform_used := "", blockchain_hash := "",
             payment_method := "", exchange_info := "", wallet_backup := "",
             crypto_type := "Bitcoin", transaction_datetime := 9,
             loss_description := "l" }⟩

/-- `modelSave` never changes the attached payload. -/
lemma modelSave_ext (x : StoredCase) : (modelSave x).ext = x.ext := by
  rcases x with ⟨b, e⟩
  cases e <;> rfl

/-- After a save, any sequence of caller-overwrite-then-save steps leaves the
`type` column at the fixed kind of the payload and the payload itself
untouched. -/
lemma savesKeepKind : ∀ (ts : List String) (x : StoredCase) (k : String),
    kindOf x.ext = some k →
    (ts.foldl saveStep (modelSave x)).base.type = k ∧
    (ts.foldl saveStep (modelSave x)).ext = x.ext := by
  intro ts
  induction ts with
  | nil =>
    intro x k hk
    rcases x with ⟨b, e⟩
    cases e <;> simp_all [kindOf, modelSave]
  | cons t ts ih =>
    intro x k hk
    have hexts : (withType (modelSave x) t).ext = x.ext := by
      simp [withType, modelSave_ext]
    have hstep : saveStep (modelSave x) t = modelSave (withType (modelSave x) t) := rfl
    have := ih (withType (modelSave x) t) k (by rw [hexts]; exact hk)
    simpa [List.foldl_cons, hstep, hexts] using this

/-- Claim C9: `close_case` is idempotent — a second application reproduces the
same final state (`is_closed = true`, `status = closed`) and, being a total
helper with no failure path, succeeds as a no-op. -/
theorem close_case_idempotent (c : Case) :
    close_case (close_case c) = close_case c
    ∧ (close_case c).is_closed = true
    ∧ (close_case c).status = "closed" :=
  ⟨rfl, rfl, rfl⟩

/-- Claim C7: the one predicate `hasPermission` decides get, put and delete
identically on `CaseDetailView`, and it grants access exactly when the actor
is the owning customer, the assigned agent, or an agent-role actor on an
unassigned case. -/
theorem access_predicate_uniform (u : User) (s : StoredCase) :
    detailGetAllowed u s = detailPutAllowed u s
    ∧ detailPutAllowed u s = detailDeleteAllowed u s
    ∧ (hasPermission u s = true ↔
        (u.uid = s.base.customer ∨ s.base.agent = some u.uid ∨
         (u.is_agent = true ∧ s.base.agent = none))) := by
  refine ⟨rfl, rfl, ?_⟩
  cases hA : s.base.agent <;>
    simp [hasPermission, hA]

/-- Claim C8: every save of a specialized extension record forces the `type`
column to the fixed kind of its variant, whatever `type` value the caller set
beforehand; consequently after a creation save and any further sequence of
overwrite-then-save steps the kind still equals the creation variant and the
payload is unchanged. -/
theorem save_forces_kind (b : Case) (f : CryptoFields) (g : SocialFields)
    (m : MoneyFields) (t : String) (ts : List String) :
    (modelSave (withType ⟨b, .crypto f⟩ t)).base.type = "crypto"
    ∧ (modelSave (withType ⟨b, .social g⟩ t)).base.type = "social_media"
    ∧ (modelSave (withType ⟨b, .money m⟩ t)).base.type = "money_recovery"
    ∧ (ts.foldl saveStep (modelSave ⟨b, .crypto f⟩)).base.type = "crypto"
    ∧ (ts.foldl saveStep (modelSave ⟨b, .crypto f⟩)).ext = CasePayload.crypto f
    ∧ (ts.foldl saveStep (modelSave ⟨b, .social g⟩)).base.type = "social_media"
    ∧ (ts.foldl saveStep (modelSave ⟨b, .money m⟩)).base.type = "money_recovery" := by
  refine ⟨rfl, rfl, rfl, ?_, ?_, ?_, ?_⟩
  · exact (savesKeepKind ts ⟨b, .crypto f⟩ "crypto" rfl).1
  · exact (savesKeepKind ts ⟨b, .crypto f⟩ "crypto" rfl).2
  · exact (savesKeepKind ts ⟨b, .social g⟩ "social_media" rfl).1
  · exact (savesKeepKind ts ⟨b, .money m⟩ "money_recovery" rfl).1

/-- Claim C1 (code evaluated at the failing input): a create-crypto request
with `usdt_value = 0` and every other field valid is persisted with HTTP 201 —
model `full_clean` carries no positivity check, and the create view never runs
`CryptoLossReportSerializer.validate`, the only place the positivity rule
exists (it rejects this very input). -/
theorem crypto_create_zero_usdt_persisted :
    createCryptoLoss c1User 700 c1ReqZero [] = (CreateResult.created c1Row, [c1Row])
    ∧ c1Row.base.type = "crypto"
    ∧ c1Row.ext = CasePayload.crypto c1Fields
    ∧ c1Fields.usdt_value = 0
    ∧ cryptoSerializerValidate c1Fields.amount_lost c1Fields.usdt_value =
        Except.error "USDT value must be greater than zero" := by
  refine ⟨rfl, rfl, rfl, rfl, rfl⟩

/-- Claim C4 (code evaluated at the spec scenario): case A updated at 100,
case B updated at 101, a document for A uploaded at 102 — the feed renders the
case entries first and merely truncates, so the order is [B, A, document],
with the newest event last instead of first. -/
theorem activity_feed_appends_docs_last :
    (buildActivity [c4CaseA, c4CaseB] [c4Doc] 200).map (fun a => a.message) =
      ["New case opened: Beta", "New case opened: Alpha",
       "Document uploaded for case: Alpha"] := by
  decide

/-- Claim C5 (code evaluated at the failing input): a patch carrying
`is_closed = true` and no `status` key leaves the update path with nothing to
reject — `is_closed` sits outside the `base_fields` allow-list, the update
succeeds, and the case stays un-closed; the corresponding check exists only in
`CaseSerializer.validate`, which the update path never calls (it rejects this
very patch). -/
theorem update_is_closed_key_ignored :
    updateCase c5Row c5Patch = Except.ok c5Row
    ∧ c5Row.base.is_closed = false
    ∧ c5Patch.is_closed = some true
    ∧ c5Patch.status = none
    ∧ caseSerializerValidate c5Patch.is_closed c5Patch.status =
        Except.error "Closed cases must have status closed" := by
  refine ⟨rfl, rfl, rfl, rfl, rfl⟩

/-- Claim C2, counterexample: for an agent and a single unassigned active
case, the listing scope contains the case while every aggregation scope
(dashboard, kind stats, analytics, per-user stats) is empty — the aggregation
views do not use the listing scope. -/
theorem agent_aggregation_scope_counterexample :
    caseListCases c2Agent none none none [c2Unassigned] = Except.ok [c2Unassigned]
    ∧ (dashboardScope c2Agent [c2Unassigned]).2 = []
    ∧ typeStatsScope c2Agent [c2Unassigned] = []
    ∧ analyticsScope c2Agent [c2Unassigned] = []
    ∧ caseStatsCases c2Agent [c2Unassigned] = Except.ok [] := by
  refine ⟨rfl, by decide, by decide, by decide, rfl⟩

/-- Claim C3, counterexample: an actor with none of the three roles receives
the full active-case admin scope from the dashboard, kind-stats and analytics
views — a silent default to the all-cases scope instead of a hard failure. -/
theorem roleless_gets_admin_scope_counterexample :
    c3User.is_customer = false ∧ c3User.is_agent = false
    ∧ dashboardScope c3User [c3Case] = ("admin", [c3Case])
    ∧ typeStatsScope c3User [c3Case] = [c3Case]
    ∧ analyticsScope c3User [c3Case] = [c3Case] := by
  refine ⟨rfl, rfl, ?_, ?_, ?_⟩ <;> decide

/-- Claim C2, amended: for agents, the dashboard, kind-stats and analytics
views all compute over the assigned-and-active cases only, the per-user stats
view over assigned cases only, and the dashboard scope is exactly the
assigned-and-active subset of the listing scope — unassigned cases, which the
listing scope includes, are excluded from every aggregation. -/
theorem agent_aggregation_scope_assigned_only (u : User) (db : List StoredCase)
    (hc : u.is_customer = false) (ha : u.is_agent = true) :
    (dashboardScope u db).2 =
      db.filter (fun s => s.base.agent == some u.uid && s.base.is_active)
    ∧ typeStatsScope u db = (dashboardScope u db).2
    ∧ analyticsScope u db = (dashboardScope u db).2
    ∧ caseStatsCases u db = Except.ok (db.filter (fun s => s.base.agent == some u.uid))
    ∧ ∀ l, caseListCases u none none none db = Except.ok l →
        (dashboardScope u db).2 =
          l.filter (fun s => s.base.agent == some u.uid && s.base.is_active) := by
  have hdash : (dashboardScope u db).2 =
      db.filter (fun s => s.base.agent == some u.uid && s.base.is_active) := by
    simp [dashboardScope, hc, ha]
  refine ⟨hdash, by simp [typeStatsScope, hc, ha, hdash, dashboardScope],
    by simp [analyticsScope, hc, ha, hdash, dashboardScope],
    by simp [caseStatsCases, hc, ha], ?_⟩
  intro l hl
  simp only [caseListCases, hc, ha, if_false, if_true, Bool.false_eq_true,
    Except.ok.injEq] at hl
  rw [hdash, ← hl, List.filter_filter]
  apply List.filter_congr
  intro s _
  cases hA : (s.base.agent == some u.uid) <;> simp [hA]

/-- Witness for the amended Claim C2 at a concrete agent and store. -/
theorem agent_aggregation_scope_assigned_only_witness :
    c2Agent.is_customer = false ∧ c2Agent.is_agent = true ∧
    ((dashboardScope c2Agent [c2Unassigned]).2 =
        [c2Unassigned].filter
          (fun s => s.base.agent == some c2Agent.uid && s.base.is_active)
    ∧ typeStatsScope c2Agent [c2Unassigned] = (dashboardScope c2Agent [c2Unassigned]).2
    ∧ analyticsScope c2Agent [c2Unassigned] = (dashboardScope c2Agent [c2Unassigned]).2
    ∧ caseStatsCases c2Agent [c2Unassigned] =
        Except.ok ([c2Unassigned].filter (fun s => s.base.agent == some c2Agent.uid))
    ∧ ∀ l, caseListCases c2Agent none none none [c2Unassigned] = Except.ok l →
        (dashboardScope c2Agent [c2Unassigned]).2 =
          l.filter (fun s => s.base.agent == some c2Agent.uid && s.base.is_active)) :=
  ⟨rfl, rfl, agent_aggregation_scope_assigned_only c2Agent [c2Unassigned] rfl rfl⟩

/-- Claim C3, amended: for an actor holding none of the three roles, the
listing and per-user stats operations do fail hard with the
user-role-not-recognized error, but the dashboard, kind-stats and analytics
views instead silently treat the actor as an administrator and compute over
the all-active-cases scope. -/
theorem unrecognized_role_split_behavior (u : User) (db : List StoredCase)
    (hc : u.is_customer = false) (ha : u.is_agent = false) :
    (∀ sf tf pf, caseListCases u sf tf pf db = Except.error "User role not recognized")
    ∧ caseStatsCases u db = Except.error "User role not recognized"
    ∧ dashboardScope u db = ("admin", db.filter (fun s => s.base.is_active))
    ∧ typeStatsScope u db = db.filter (fun s => s.base.is_active)
    ∧ analyticsScope u db = db.filter (fun s => s.base.is_active) := by
  refine ⟨?_, ?_, ?_, ?_, ?_⟩ <;> intros <;>
    simp [caseListCases, caseStatsCases, dashboardScope, typeStatsScope,
      analyticsScope, hc, ha]

/-- Witness for the amended Claim C3 at a concrete roleless actor and store. -/
theorem unrecognized_role_split_behavior_witness :
    c3User.is_customer = false ∧ c3User.is_agent = false ∧
    ((∀ sf tf pf, caseListCases c3User sf tf pf [c3Case] =
        Except.error "User role not recognized")
    ∧ caseStatsCases c3User [c3Case] = Except.error "User role not recognized"
    ∧ dashboardScope c3User [c3Case] =
        ("admin", [c3Case].filter (fun s => s.base.is_active))
    ∧ typeStatsScope c3User [c3Case] = [c3Case].filter (fun s => s.base.is_active)
    ∧ analyticsScope c3User [c3Case] = [c3Case].filter (fun s => s.base.is_active)) :=
  ⟨rfl, rfl, unrecognized_role_split_behavior c3User [c3Case] rfl rfl⟩

/-- The integer comparisons of the progress heuristic agree with the ratio
thresholds stated over exact rationals. -/
lemma ratio_index_eq (n r p ip o : ℕ) (hn : 0 < n) :
    (if n * 4 ≤ r * 5 then (4:ℕ)
     else if n * 3 ≤ (r + p) * 5 then 3
     else if n * 2 ≤ ip * 5 then 2
     else if o * 5 < n * 4 then 1
     else 0)
    = (if (4:ℚ)/5 ≤ (r:ℚ)/(n:ℚ) then 4
       else if (3:ℚ)/5 ≤ ((r:ℚ)+(p:ℚ))/(n:ℚ) then 3
       else if (2:ℚ)/5 ≤ (ip:ℚ)/(n:ℚ) then 2
       else if (o:ℚ)/(n:ℚ) < (4:ℚ)/5 then 1
       else 0) := by
  have hnq : (0:ℚ) < (n:ℚ) := by exact_mod_cast hn
  have h4 : ((4:ℚ)/5 ≤ (r:ℚ)/(n:ℚ)) ↔ n * 4 ≤ r * 5 := by
    rw [div_le_div_iff₀ (by norm_num) hnq]
    constructor
    · intro hx
      have hq : ((n:ℚ)) * 4 ≤ (r:ℚ) * 5 := by linarith
      exact_mod_cast hq
    · intro hx
      have hq : ((n:ℚ)) * 4 ≤ (r:ℚ) * 5 := by exact_mod_cast hx
      linarith
  have h3 : ((3:ℚ)/5 ≤ ((r:ℚ)+(p:ℚ))/(n:ℚ)) ↔ n * 3 ≤ (r + p) * 5 := by
    rw [div_le_div_iff₀ (by norm_num) hnq]
    constructor
    · intro hx
      have hq : ((n:ℚ)) * 3 ≤ ((r:ℚ)+(p:ℚ)) * 5 := by linarith
      have hq2 : ((n:ℚ)) * 3 ≤ (((r+p : ℕ)):ℚ) * 5 := by push_cast; linarith
      exact_mod_cast hq2
    · intro hx
      have hq : (((n * 3 : ℕ)):ℚ) ≤ (((r + p) * 5 : ℕ):ℚ) := by exact_mod_cast hx
      push_cast at hq
      linarith
  have h2 : ((2:ℚ)/5 ≤ (ip:ℚ)/(n:ℚ)) ↔ n * 2 ≤ ip * 5 := by
    rw [div_le_div_iff₀ (by norm_num) hnq]
    constructor
    · intro hx
      have hq : ((n:ℚ)) * 2 ≤ (ip:ℚ) * 5 := by linarith
      exact_mod_cast hq
    · intro hx
      have hq : ((n:ℚ)) * 2 ≤ (ip:ℚ) * 5 := by exact_mod_cast hx
      linarith
  have h1 : ((o:ℚ)/(n:ℚ) < (4:ℚ)/5) ↔ o * 5 < n * 4 := by
    rw [div_lt_div_iff₀ hnq (by norm_num)]
    constructor
    · intro hx
      have hq : ((o:ℚ)) * 5 < (n:ℚ) * 4 := by linarith
      exact_mod_cast hq
    · intro hx
      have hq : ((o:ℚ)) * 5 < (n:ℚ) * 4 := by exact_mod_cast hx
      linarith
  simp only [h4, h3, h2, h1]

/-- Claim C6: on a non-empty scoped case set the progress index is the first
matching threshold rule, with the thresholds read as exact ratios of the
status counts to the total — resolved-or-closed ≥ 4/5 gives 4, then
resolved-or-closed-plus-pending ≥ 3/5 gives 3, then in-progress ≥ 2/5 gives
2, then open < 4/5 gives 1, else 0; the empty scope yields the distinct
zero-state labels with index 0. -/
theorem progress_index_thresholds (caseSet : List StoredCase) (h : caseSet ≠ []) :
    (buildProgress caseSet).2 =
      (if (4:ℚ)/5 ≤
          (((caseSet.filter (fun s =>
              s.base.status == "resolved" || s.base.status == "closed")).length : ℚ))
            / (caseSet.length : ℚ) then 4
       else if (3:ℚ)/5 ≤
          ((((caseSet.filter (fun s =>
              s.base.status == "resolved" || s.base.status == "closed")).length : ℚ))
            + ((countStatus caseSet "pending" : ℕ) : ℚ)) / (caseSet.length : ℚ) then 3
       else if (2:ℚ)/5 ≤
          (((countStatus caseSet "in_progress" : ℕ) : ℚ)) / (caseSet.length : ℚ) then 2
       else if (((countStatus caseSet "open" : ℕ) : ℚ)) / (caseSet.length : ℚ)
          < (4:ℚ)/5 then 1
       else 0)
    ∧ buildProgress [] = (zeroCaseSteps, 0) := by
  refine ⟨?_, rfl⟩
  have hn : 0 < caseSet.length := List.length_pos.mpr h
  have hmain := ratio_index_eq caseSet.length
    ((caseSet.filter (fun s =>
        s.base.status == "resolved" || s.base.status == "closed")).length)
    (countStatus caseSet "pending") (countStatus caseSet "in_progress")
    (countStatus caseSet "open") hn
  simp only [buildProgress, if_pos hn]
  exact hmain

/-- Witness for Claim C6 at a concrete one-element scope. -/
theorem progress_index_thresholds_witness :
    ([c6Row] ≠ []) ∧
    ((buildProgress [c6Row]).2 =
      (if (4:ℚ)/5 ≤
          ((([c6Row].filter (fun s =>
              s.base.status == "resolved" || s.base.status == "closed")).length : ℚ))
            / (([c6Row] : List StoredCase).length : ℚ) then 4
       else if (3:ℚ)/5 ≤
          (((([c6Row].filter (fun s =>
              s.base.status == "resolved" || s.base.status == "closed")).length : ℚ))
            + ((countStatus [c6Row] "pending" : ℕ) : ℚ))
            / (([c6Row] : List StoredCase).length : ℚ) then 3
       else if (2:ℚ)/5 ≤
          (((countStatus [c6Row] "in_progress" : ℕ) : ℚ))
            / (([c6Row] : List StoredCase).length : ℚ) then 2
       else if (((countStatus [c6Row] "open" : ℕ) : ℚ))
            / (([c6Row] : List StoredCase).length : ℚ) < (4:ℚ)/5 then 1
       else 0)
    ∧ buildProgress [] = (zeroCaseSteps, 0)) :=
  ⟨List.cons_ne_nil c6Row [], progress_index_thresholds [c6Row] (List.cons_ne_nil c6Row [])⟩

/-- Claim C10: the update view can touch only the allow-listed base fields
and the kind-specific fields of the attached variant — on any successful
update, whatever keys the patch carries, the case keeps its customer, agent,
type, is_closed, is_active, created_at and resolution_date values. -/
theorem update_frame_preserved (s : StoredCase) (p : UpdateData) (s' : StoredCase)
    (hk : matchesKind s = true) (hup : updateCase s p = Except.ok s') :
    s'.base.customer = s.base.customer
    ∧ s'.base.agent = s.base.agent
    ∧ s'.base.type = s.base.type
    ∧ s'.base.is_closed = s.base.is_closed
    ∧ s'.base.is_active = s.base.is_active
    ∧ s'.base.created_at = s.base.created_at
    ∧ s'.base.resolution_date = s.base.resolution_date := by
  rcases s with ⟨b, e⟩
  cases e with
  | general =>
    simp only [updateCase] at hup
    split at hup
    · simp only [Except.ok.injEq] at hup
      subst hup
      exact ⟨rfl, rfl, rfl, rfl, rfl, rfl, rfl⟩
    · simp at hup
  | crypto f =>
    have hbt : b.type = "crypto" := by simpa [matchesKind] using hk
    simp only [updateCase] at hup
    split at hup
    · split at hup
      · simp only [Except.ok.injEq] at hup
        subst hup
        exact ⟨rfl, rfl, hbt.symm, rfl, rfl, rfl, rfl⟩
      · simp at hup
    · simp at hup
  | social f =>
    have hbt : b.type = "social_media" := by simpa [matchesKind] using hk
    simp only [updateCase] at hup
    split at hup
    · split at hup
      · simp only [Except.ok.injEq] at hup
        subst hup
        exact ⟨rfl, rfl, hbt.symm, rfl, rfl, rfl, rfl⟩
      · simp at hup
    · simp at hup
  | money f =>
    have hbt : b.type = "money_recovery" := by simpa [matchesKind] using hk
    simp only [updateCase] at hup
    split at hup
    · split at hup
      · simp only [Except.ok.injEq] at hup
        subst hup
        exact ⟨rfl, rfl, hbt.symm, rfl, rfl, rfl, rfl⟩
      · simp at hup
    · simp at hup

/-- Witness for Claim C10 at a concrete crypto case and patch (which also
carries an ignored `customer` key). -/
theorem update_frame_preserved_witness :
    matchesKind c10Row = true
    ∧ updateCase c10Row c10Patch = Except.ok c10Row'
    ∧ (c10Row'.base.customer = c10Row.base.customer
       ∧ c10Row'.base.agent = c10Row.base.agent
       ∧ c10Row'.base.type = c10Row.base.type
       ∧ c10Row'.base.is_closed = c10Row.base.is_closed
       ∧ c10Row'.base.is_active = c10Row.base.is_active
       ∧ c10Row'.base.created_at = c10Row.base.created_at
       ∧ c10Row'.base.resolution_date = c10Row.base.resolution_date) :=
  ⟨rfl, rfl, update_frame_preserved c10Row c10Patch c10Row' rfl rfl⟩
